import Mathlib

/-!
Verification of the MT5 TCP bridge (`src/server.py`) against its
natural-language specification.

The development shallowly embeds the bridge's core:
* the Wire Framer read loop of `tcp_server` (lines 74-85),
* the Connection Acceptor iteration of `tcp_server` (lines 58-96),
* the polling wait of `send_command_to_mt5` (lines 118-135),
* the HTTP endpoint wrappers (lines 138-254).

Python's unbounded queues become Lean lists (head = front of the queue);
wall-clock time is discretised in ticks of 0.1 s, the `time.sleep(0.1)`
poll interval of `send_command_to_mt5`; exceptions become `Except`.
-/

namespace MT5Bridge

/-- JSON values, the payloads flowing through the bridge (opaque to it). -/
inductive Json where
  | num : Int → Json
  | str : String → Json
  | bool : Bool → Json
  | null : Json
  | arr : List Json → Json
  | obj : List (String × Json) → Json

/-- Modelled from the spec: Python's `json.loads` (standard library, not part
of `src/`), restricted to integer documents — a non-empty digit string with no
spurious leading zero parses as the corresponding JSON number, anything else is
rejected.  This agrees with `json.loads` on every byte sequence this file feeds
to it; completeness of a document is "the parse succeeds", exactly as the spec
states. -/
def loads (s : List Char) : Option Json :=
  if s ≠ [] ∧ s.all Char.isDigit ∧ (s.head? = some '0' → s = ['0']) then
    some (Json.num (s.foldl (fun n c => 10 * n + (c.toNat - 48 : Int)) 0))
  else
    none

/-- The Wire Framer read loop of `tcp_server` (src/server.py lines 74-85):
accumulate received chunks; after each chunk, try to parse the whole
accumulated buffer; stop at the first successful parse.  The chunk list ending
models `recv` returning `b''` (peer closed the stream); falling off the end
without a successful parse returns `none` (the Python loop `break`s with no
`response` assigned). -/
def readLoop (parse : List Char → Option Json) (acc : List Char) :
    List (List Char) → Option Json
  | [] => none
  | chunk :: rest =>
    match parse (acc ++ chunk) with
    | some j => some j
    | none => readLoop parse (acc ++ chunk) rest

example : readLoop loads [] [['1'], ['1']] = some (Json.num 1) := rfl
example : readLoop loads [] [['1', '1']] = some (Json.num 11) := rfl
example : readLoop loads [] [['x']] = none := rfl
example : readLoop loads [] [] = none := rfl
example : Json.num 11 ≠ Json.num 1 := by simp

mutual

/-- Modelled from the spec: Python's `json.dumps` (standard library, not part
of `src/`) with its default separators, used by `tcp_server` to serialise the
dispatched command (src/server.py line 69). -/
def dumps : Json → String
  | .num n => toString n
  | .str s => "\"" ++ s ++ "\""
  | .bool b => if b then "true" else "false"
  | .null => "null"
  | .arr xs => "[" ++ dumpsArr xs ++ "]"
  | .obj kvs => "\x7b" ++ dumpsObj kvs ++ "\x7d"

/-- Comma-separated serialisation of a JSON array's elements. -/
def dumpsArr : List Json → String
  | [] => ""
  | [x] => dumps x
  | x :: y :: xs => dumps x ++ ", " ++ dumpsArr (y :: xs)

/-- Comma-separated serialisation of a JSON object's key/value pairs. -/
def dumpsObj : List (String × Json) → String
  | [] => ""
  | [(k, v)] => "\"" ++ k ++ "\": " ++ dumps v
  | (k, v) :: p :: kvs => "\"" ++ k ++ "\": " ++ dumps v ++ ", " ++ dumpsObj (p :: kvs)

end

/-- The exact bytes `tcp_server` writes when the Command Queue is empty
(src/server.py line 91). -/
def idleBytes : String := "\x7b\"status\":\"waiting\"\x7d"

example : dumps (Json.obj [("action", Json.str "GET_STATS")]) =
    "\x7b\"action\": \"GET_STATS\"\x7d" := rfl

/-- State of the bridge observed by the `tcp_server` thread:
the two module-level queues (src/server.py lines 20-21, head = front),
the `response` local of `tcp_server`, which Python keeps across iterations of
the accept loop (assigned only on a successful parse, line 82), and the lines
printed by the outer `except` handler (line 96). -/
structure SrvState where
  command_queue : List Json
  response_queue : List Json
  lastResponse : Option Json
  errorLog : List String

/-- What one iteration of the accept loop did to the accepted connection. -/
structure ConnResult where
  /-- Payloads passed to `sendall`, in order (serialised command, or the idle
  placeholder). -/
  wrote : List String
  /-- The command dequeued and dispatched on this connection, if any. -/
  sentCommand : Option Json
  /-- Whether `client_socket.close()` (line 93) was reached. -/
  closed : Bool
  /-- The exception, if any, that escaped to the loop's `except` handler. -/
  raised : Option String

/-- The body of the `try:` block of one `tcp_server` loop iteration
(src/server.py lines 60-93), for one accepted connection.  `chunks` is the
sequence of non-empty payloads `recv` returns before the peer closes the
stream.  An `.error` result is an exception thrown mid-body: it carries the
state and connection effects accumulated up to the throw.

Line-by-line correspondence:
* queue non-empty: `command = command_queue.get()` pops the head; the command
  is serialised and sent; the read loop (lines 74-85) runs.
  - If it parses a document `r`: `response_queue.put(r)` and the `response`
    local now holds `r`; the socket is closed.
  - If the stream closes first, execution falls out of the read loop and
    reaches `print(... response ...)` / `response_queue.put(response)`
    (lines 87-88) with `response` still holding its value from a *previous*
    iteration: that stale value is re-enqueued.  If no iteration ever assigned
    `response`, Python raises `NameError` at line 87, skipping both the `put`
    and `client_socket.close()`.
* queue empty: only the idle placeholder is written, then close. -/
def handleConn (parse : List Char → Option Json) (s : SrvState)
    (chunks : List (List Char)) :
    Except (String × SrvState × ConnResult) (SrvState × ConnResult) :=
  match s.command_queue with
  | command :: rest =>
    match readLoop parse [] chunks with
    | some r =>
      .ok ({ s with command_queue := rest,
                    response_queue := s.response_queue ++ [r],
                    lastResponse := some r },
           { wrote := [dumps command], sentCommand := some command,
             closed := true, raised := none })
    | none =>
      match s.lastResponse with
      | some stale =>
        .ok ({ s with command_queue := rest,
                      response_queue := s.response_queue ++ [stale] },
             { wrote := [dumps command], sentCommand := some command,
               closed := true, raised := none })
      | none =>
        .error ("NameError: name 'response' is not defined",
                { s with command_queue := rest },
                { wrote := [dumps command], sentCommand := some command,
                  closed := false, raised := some "NameError" })
  | [] =>
    .ok (s, { wrote := [idleBytes], sentCommand := none,
              closed := true, raised := none })

/-- One full iteration of the `while True:` accept loop of `tcp_server`
(src/server.py lines 58-96): run the body; any exception is caught by the
`except Exception` handler, printed, and the loop continues. -/
def tcpIter (parse : List Char → Option Json) (s : SrvState)
    (chunks : List (List Char)) : SrvState × ConnResult :=
  match handleConn parse s chunks with
  | .ok out => out
  | .error (e, s', cr) =>
    ({ s' with errorLog := s'.errorLog ++ ["TCP Server error: " ++ e] }, cr)

/-- The accept loop over a finite sequence of incoming connections: one
`tcpIter` per accepted connection, in order. -/
def tcpRun (parse : List Char → Option Json) (s : SrvState) :
    List (List (List Char)) → SrvState × List ConnResult
  | [] => (s, [])
  | chunks :: conns =>
    ((tcpRun parse (tcpIter parse s chunks).1 conns).1,
     (tcpIter parse s chunks).2 :: (tcpRun parse (tcpIter parse s chunks).1 conns).2)

/-- A Python exception as observed by an endpoint's `except Exception` block:
either a FastAPI `HTTPException` (which subclasses `Exception` and is therefore
caught by that block) or any other exception. -/
inductive PyExc where
  | http (status : Nat) (detail : String)
  | other (msg : String)

/-- Modelled from the spec: `str(e)` for the exceptions above (Starlette's
`HTTPException.__str__` renders `"{status_code}: {detail}"`). -/
def pyStr : PyExc → String
  | .http status detail => toString status ++ ": " ++ detail
  | .other msg => msg

/-- The exception `send_command_to_mt5` raises on timeout
(src/server.py line 135). -/
def httpTimeout : PyExc := .http 504 "MT5 timeout - EA not connecting"

/-- The polling wait of `send_command_to_mt5` (src/server.py lines 128-135),
in discrete time: one tick = one `time.sleep(0.1)` interval.  `respAt t` is
the content of `response_queue` the caller observes at tick `t` (the acceptor
thread may append to it between ticks; a `get` by another caller removes from
it — `respAt` abstracts that interleaving).  `remaining` is the number of
ticks until the deadline, so the `while time.time() - start < timeout` guard
is `remaining > 0`; the result records the tick at which the call returned or
raised.  A non-empty queue returns `response_queue.get()`, its head. -/
def pollFrom (respAt : Nat → List Json) (elapsed : Nat) :
    Nat → Except PyExc Json × Nat
  | 0 => (.error httpTimeout, elapsed)
  | remaining + 1 =>
    match respAt elapsed with
    | r :: _ => (.ok r, elapsed)
    | [] => pollFrom respAt (elapsed + 1) remaining

/-- The polling wait started at tick 0 with deadline `deadline` ticks. -/
def pollLoop (respAt : Nat → List Json) (deadline : Nat) :
    Except PyExc Json × Nat :=
  pollFrom respAt 0 deadline

/-- Function `send_command_to_mt5` (src/server.py lines 118-135): put the command on
`command_queue` (line 125), then poll `response_queue` every 0.1 s until a
response appears or `timeout` seconds (= `10 * timeout` ticks) elapse, in
which case `HTTPException(504, "MT5 timeout - EA not connecting")` is raised.
Returns the command queue after the `put` together with the call's result.
The wait loop never touches `command_queue`. -/
def send_command_to_mt5 (command_queue : List Json)
    (respAt : Nat → List Json) (command : Json) (timeout : Nat) :
    List Json × Except PyExc Json :=
  (command_queue ++ [command], (pollLoop respAt (10 * timeout)).1)

example : (send_command_to_mt5 [] (fun _ => []) Json.null 1).2 =
    .error httpTimeout := rfl
example : (send_command_to_mt5 [] (fun t => if t < 3 then [] else [Json.num 7])
    Json.null 1).2 = .ok (Json.num 7) := rfl

/-- The `try: ... except Exception as e: raise HTTPException(status_code=500,
detail=str(e))` wrapper shared verbatim by all seven HTTP endpoints
(src/server.py lines 159-163, 173-177, 187-191, 204-208, 221-225, 235-239,
250-254). -/
def tryWrap (r : Except PyExc Json) : Except PyExc Json :=
  match r with
  | .ok v => .ok v
  | .error e => .error (.http 500 (pyStr e))

/-- Endpoint `POST /order` (src/server.py lines 138-163): build the `PLACE_ORDER`
command from the request body and send it with the default 10 s timeout. -/
def create_order (command_queue : List Json) (respAt : Nat → List Json)
    (orderData : Json) : List Json × Except PyExc Json :=
  let command := Json.obj [("action", Json.str "PLACE_ORDER"), ("data", orderData)]
  let (q, r) := send_command_to_mt5 command_queue respAt command 10
  (q, tryWrap r)

/-- Endpoint `GET /positions` (src/server.py lines 166-177). -/
def get_positions (command_queue : List Json) (respAt : Nat → List Json) :
    List Json × Except PyExc Json :=
  let command := Json.obj [("action", Json.str "GET_POSITIONS")]
  let (q, r) := send_command_to_mt5 command_queue respAt command 10
  (q, tryWrap r)

/-- Endpoint `GET /orders` (src/server.py lines 180-191). -/
def get_orders (command_queue : List Json) (respAt : Nat → List Json) :
    List Json × Except PyExc Json :=
  let command := Json.obj [("action", Json.str "GET_ORDERS")]
  let (q, r) := send_command_to_mt5 command_queue respAt command 10
  (q, tryWrap r)

/-- Endpoint `DELETE /order/:ticket` (src/server.py lines 194-208). -/
def delete_order (command_queue : List Json) (respAt : Nat → List Json)
    (ticket : Int) : List Json × Except PyExc Json :=
  let command := Json.obj [("action", Json.str "DELETE_ORDER"),
                           ("data", Json.obj [("ticket", Json.num ticket)])]
  let (q, r) := send_command_to_mt5 command_queue respAt command 10
  (q, tryWrap r)

/-- Endpoint `DELETE /position/:ticket` (src/server.py lines 211-225). -/
def close_position (command_queue : List Json) (respAt : Nat → List Json)
    (ticket : Int) : List Json × Except PyExc Json :=
  let command := Json.obj [("action", Json.str "CLOSE_POSITION"),
                           ("data", Json.obj [("ticket", Json.num ticket)])]
  let (q, r) := send_command_to_mt5 command_queue respAt command 10
  (q, tryWrap r)

/-- Endpoint `GET /stats` (src/server.py lines 228-239). -/
def get_stats (command_queue : List Json) (respAt : Nat → List Json) :
    List Json × Except PyExc Json :=
  let command := Json.obj [("action", Json.str "GET_STATS")]
  let (q, r) := send_command_to_mt5 command_queue respAt command 10
  (q, tryWrap r)

/-- Endpoint `POST /safe-shutdown` (src/server.py lines 242-254). -/
def safe_shutdown (command_queue : List Json) (respAt : Nat → List Json) :
    List Json × Except PyExc Json :=
  let command := Json.obj [("action", Json.str "SAFE_SHUTDOWN")]
  let (q, r) := send_command_to_mt5 command_queue respAt command 10
  (q, tryWrap r)

/-! ## Helper lemmas -/

/-- Whenever the command queue is non-empty, an accepted connection is sent the
head command and the head is removed, whatever the peer then does. -/
theorem tcpIter_dispatch (parse : List Char → Option Json) (s : SrvState)
    (chunks : List (List Char)) (c : Json) (rest : List Json)
    (h : s.command_queue = c :: rest) :
    (tcpIter parse s chunks).2.sentCommand = some c ∧
    (tcpIter parse s chunks).1.command_queue = rest := by
  unfold tcpIter handleConn
  rw [h]
  cases readLoop parse [] chunks with
  | some r => simp
  | none =>
    cases s.lastResponse with
    | some stale => simp
    | none => simp

/-- Every accept-loop iteration grows the error log by one entry exactly when
an exception escaped to the `except` handler. -/
theorem tcpIter_log (parse : List Char → Option Json) (s : SrvState)
    (chunks : List (List Char)) :
    (tcpIter parse s chunks).1.errorLog.length =
      s.errorLog.length +
        (if (tcpIter parse s chunks).2.raised.isSome then 1 else 0) := by
  unfold tcpIter handleConn
  cases s.command_queue with
  | nil => simp
  | cons c rest =>
    cases readLoop parse [] chunks with
    | some r => simp
    | none =>
      cases s.lastResponse with
      | some stale => simp
      | none => simp

/-- When the response queue stays empty at every tick, the polling wait runs to
its deadline and raises the 504 timeout. -/
theorem pollFrom_empty (respAt : Nat → List Json)
    (h : ∀ t, respAt t = []) (elapsed remaining : Nat) :
    pollFrom respAt elapsed remaining = (.error httpTimeout, elapsed + remaining) := by
  induction remaining generalizing elapsed with
  | zero => simp [pollFrom]
  | succ n ih =>
    simp only [pollFrom, h elapsed, ih (elapsed + 1), Prod.mk.injEq]
    exact ⟨trivial, by omega⟩

/-- Specialisation of `pollFrom_empty` to a wait started at tick 0. -/
theorem pollLoop_empty (respAt : Nat → List Json)
    (h : ∀ t, respAt t = []) (deadline : Nat) :
    pollLoop respAt deadline = (.error httpTimeout, deadline) := by
  rw [pollLoop, pollFrom_empty respAt h 0 deadline]
  simp

/-- A caller that polls with a positive deadline while the response queue is
non-empty returns the queue's head on its first check. -/
theorem pollLoop_head (respAt : Nat → List Json) (r : Json) (tl : List Json)
    (deadline : Nat) (hd : 0 < deadline) (h0 : respAt 0 = r :: tl) :
    (pollLoop respAt deadline).1 = .ok r := by
  cases deadline with
  | zero => omega
  | succ n => rw [pollLoop, pollFrom, h0]

/-! ## Claim theorems -/

/-- C4: a command submitted with timeout `T` while no client ever connects
(the response queue stays empty at every poll tick) fails with
`HTTPException(504, "MT5 timeout - EA not connecting")`, and the raise happens
at poll tick `10 * T` — no earlier than `T` seconds after submission and no
later than `T` seconds plus one 0.1 s wait-check interval (one tick). -/
theorem C4_timeout_bounds (command_queue : List Json) (respAt : Nat → List Json)
    (command : Json) (T : Nat) (h : ∀ t, respAt t = []) :
    (send_command_to_mt5 command_queue respAt command T).2 =
      .error (PyExc.http 504 "MT5 timeout - EA not connecting") ∧
    10 * T ≤ (pollLoop respAt (10 * T)).2 ∧
    (pollLoop respAt (10 * T)).2 ≤ 10 * T + 1 := by
  have hp := pollLoop_empty respAt h (10 * T)
  have h2 : (pollLoop respAt (10 * T)).2 = 10 * T := by rw [hp]
  refine ⟨?_, by omega, by omega⟩
  show (pollLoop respAt (10 * T)).1 = _
  rw [hp]
  rfl

/-- Witness for C4 at timeout 1 s with a constantly empty response queue. -/
theorem C4_timeout_bounds_witness :
    (send_command_to_mt5 [] (fun _ => []) Json.null 1).2 =
      .error (PyExc.http 504 "MT5 timeout - EA not connecting") ∧
    10 * 1 ≤ (pollLoop (fun _ => []) (10 * 1)).2 ∧
    (pollLoop (fun _ => []) (10 * 1)).2 ≤ 10 * 1 + 1 :=
  C4_timeout_bounds [] (fun _ => []) Json.null 1 (fun _ => rfl)

/-- C5: commands `c1` then `c2` submitted in that order while no client is
connected (two `send_command_to_mt5` calls enqueueing onto an initially empty
command queue) are dispatched FIFO: the first subsequently accepted connection
is sent `c1` and the second is sent `c2`, whatever the clients reply, whatever
the callers' poll schedules and timeouts, and whatever the rest of the server
state holds. -/
theorem C5_fifo_dispatch (parse : List Char → Option Json) (c1 c2 : Json)
    (rA rB : Nat → List Json) (t1 t2 : Nat) (respQ : List Json)
    (lr : Option Json) (log : List String)
    (chunks1 chunks2 : List (List Char)) :
    (send_command_to_mt5 [] rA c1 t1).1 = [c1] ∧
    (send_command_to_mt5 [c1] rB c2 t2).1 = [c1, c2] ∧
    (tcpIter parse ⟨[c1, c2], respQ, lr, log⟩ chunks1).2.sentCommand = some c1 ∧
    (tcpIter parse (tcpIter parse ⟨[c1, c2], respQ, lr, log⟩ chunks1).1
        chunks2).2.sentCommand = some c2 := by
  have h1 := tcpIter_dispatch parse ⟨[c1, c2], respQ, lr, log⟩ chunks1 c1 [c2] rfl
  have h2 := tcpIter_dispatch parse
    (tcpIter parse ⟨[c1, c2], respQ, lr, log⟩ chunks1).1 chunks2 c2 [] h1.2
  exact ⟨rfl, rfl, h1.1, h2.1⟩

/-- C7: a connection accepted while the command queue is empty is written
exactly one payload, the literal idle placeholder bytes, is sent no command,
is closed, and the server state is left untouched. -/
theorem C7_idle_reply (parse : List Char → Option Json) (s : SrvState)
    (chunks : List (List Char)) (h : s.command_queue = []) :
    tcpIter parse s chunks =
      (s, { wrote := [idleBytes], sentCommand := none,
            closed := true, raised := none }) := by
  unfold tcpIter handleConn
  rw [h]

/-- Witness for C7: a concrete idle connection. -/
theorem C7_idle_reply_witness :
    tcpIter loads ⟨[], [Json.num 5], none, []⟩ [['4', '2']] =
      (⟨[], [Json.num 5], none, []⟩,
       { wrote := [idleBytes], sentCommand := none,
         closed := true, raised := none }) :=
  C7_idle_reply loads ⟨[], [Json.num 5], none, []⟩ [['4', '2']] rfl

/-- C8: the accept loop never terminates because of a per-connection error:
over any finite sequence of incoming connections it produces one `ConnResult`
per accepted connection (after an exception it still proceeds to the next
accept), and every exception escaping a single connection's handling is caught
and logged — the error log grows by exactly the number of connections whose
handling raised. -/
theorem C8_acceptor_survives (parse : List Char → Option Json) (s : SrvState)
    (conns : List (List (List Char))) :
    (tcpRun parse s conns).2.length = conns.length ∧
    (tcpRun parse s conns).1.errorLog.length =
      s.errorLog.length +
        ((tcpRun parse s conns).2.filter
          (fun cr => cr.raised.isSome)).length := by
  induction conns generalizing s with
  | nil => simp [tcpRun]
  | cons chunks conns ih =>
    have hlog := tcpIter_log parse s chunks
    have ih1 := (ih (tcpIter parse s chunks).1).1
    have ih2 := (ih (tcpIter parse s chunks).1).2
    refine ⟨?_, ?_⟩
    · simp only [tcpRun, List.length_cons, ih1]
    · simp only [tcpRun, List.filter_cons]
      cases hb : (tcpIter parse s chunks).2.raised.isSome with
      | false =>
        simp only [hb] at hlog ⊢
        simp at hlog ⊢
        omega
      | true =>
        simp only [hb] at hlog ⊢
        simp at hlog ⊢
        omega

/-- C10: a `send_command_to_mt5` call that times out leaves its command on the
command queue — the put is unconditional and the wait loop never touches
`command_queue` — so the next accepted connection still dispatches that
command even though its caller has already failed with the 504. -/
theorem C10_timed_out_command_survives (parse : List Char → Option Json)
    (command : Json) (T : Nat) (respAt : Nat → List Json)
    (respQ : List Json) (lr : Option Json) (log : List String)
    (chunks : List (List Char)) (h : ∀ t, respAt t = []) :
    (send_command_to_mt5 [] respAt command T).2 = .error httpTimeout ∧
    (send_command_to_mt5 [] respAt command T).1 = [command] ∧
    (tcpIter parse ⟨(send_command_to_mt5 [] respAt command T).1, respQ, lr, log⟩
        chunks).2.sentCommand = some command := by
  have hp := pollLoop_empty respAt h (10 * T)
  refine ⟨?_, rfl, ?_⟩
  · show (pollLoop respAt (10 * T)).1 = _
    rw [hp]
  · exact (tcpIter_dispatch parse _ chunks command [] rfl).1

/-- Witness for C10 at a concrete timed-out call and a concrete follow-up
connection. -/
theorem C10_timed_out_command_survives_witness :
    (send_command_to_mt5 [] (fun _ => []) Json.null 1).2 = .error httpTimeout ∧
    (send_command_to_mt5 [] (fun _ => []) Json.null 1).1 = [Json.null] ∧
    (tcpIter loads ⟨(send_command_to_mt5 [] (fun _ => []) Json.null 1).1,
        [], none, []⟩ [['7']]).2.sentCommand = some Json.null :=
  C10_timed_out_command_survives loads Json.null 1 (fun _ => []) [] none []
    [['7']] (fun _ => rfl)

/-- C9: when `send_command_to_mt5` raises its timeout `HTTPException` with
status 504 (here: no response is ever delivered during the default 10 s wait,
so the send result is exactly that 504 error), every HTTP endpoint's generic
`except Exception` handler catches it — FastAPI's `HTTPException` subclasses
`Exception` — and re-raises `HTTPException(status_code=500, detail=str(e))`:
the external caller observes status 500, never 504. -/
theorem C9_endpoints_mask_504 (command_queue : List Json) (orderData : Json)
    (ticket1 ticket2 : Int) :
    (send_command_to_mt5 command_queue (fun _ => [])
        (Json.obj [("action", Json.str "GET_STATS")]) 10).2 =
      .error (PyExc.http 504 "MT5 timeout - EA not connecting") ∧
    (create_order command_queue (fun _ => []) orderData).2 =
      .error (PyExc.http 500 (pyStr httpTimeout)) ∧
    (get_positions command_queue (fun _ => [])).2 =
      .error (PyExc.http 500 (pyStr httpTimeout)) ∧
    (get_orders command_queue (fun _ => [])).2 =
      .error (PyExc.http 500 (pyStr httpTimeout)) ∧
    (delete_order command_queue (fun _ => []) ticket1).2 =
      .error (PyExc.http 500 (pyStr httpTimeout)) ∧
    (close_position command_queue (fun _ => []) ticket2).2 =
      .error (PyExc.http 500 (pyStr httpTimeout)) ∧
    (get_stats command_queue (fun _ => [])).2 =
      .error (PyExc.http 500 (pyStr httpTimeout)) ∧
    (safe_shutdown command_queue (fun _ => [])).2 =
      .error (PyExc.http 500 (pyStr httpTimeout)) := by
  have hp := pollLoop_empty (fun _ => ([] : List Json)) (fun _ => rfl) (10 * 10)
  refine ⟨?_, ?_, ?_, ?_, ?_, ?_, ?_, ?_⟩ <;>
    simp [create_order, get_positions, get_orders, delete_order, close_position,
          get_stats, safe_shutdown, send_command_to_mt5, tryWrap, hp,
          httpTimeout]

/-- C3 (code bug): a connection that was sent a command and whose peer then
closes the stream before a complete JSON document arrives does NOT behave as
the claim states.  The `break` on an empty `recv` (src/server.py line 78)
falls through to lines 87-88, where `response` still holds the value a
PREVIOUS iteration parsed: that stale response is re-enqueued — a Response IS
delivered.  When no previous iteration ever assigned `response`, line 87
raises `NameError` instead, which the loop handler logs, but
`client_socket.close()` (line 93) is skipped — the connection is NOT closed by
the handler.  Both evaluated on a peer closing with zero bytes read. -/
theorem C3_incomplete_close_misbehaves :
    (tcpIter loads ⟨[Json.obj [("action", Json.str "GET_STATS")]], [],
        some (Json.num 42), []⟩ []).1.response_queue = [Json.num 42] ∧
    (tcpIter loads ⟨[Json.obj [("action", Json.str "GET_STATS")]], [],
        some (Json.num 42), []⟩ []).2.closed = true ∧
    (tcpIter loads ⟨[Json.obj [("action", Json.str "GET_STATS")]], [],
        none, []⟩ []).1.response_queue = [] ∧
    (tcpIter loads ⟨[Json.obj [("action", Json.str "GET_STATS")]], [],
        none, []⟩ []).2.closed = false ∧
    (tcpIter loads ⟨[Json.obj [("action", Json.str "GET_STATS")]], [],
        none, []⟩ []).1.errorLog =
      ["TCP Server error: NameError: name 'response' is not defined"] :=
  ⟨rfl, rfl, rfl, rfl, rfl⟩

/-- C2: two commands submitted concurrently before any client connects can
cross-deliver.  Caller 1 submits GET_STATS, then caller 2 submits
GET_POSITIONS (no client yet, queue now [GET_STATS, GET_POSITIONS]); the first
connection dispatches caller 1's GET_STATS and the client's reply `1000` for
it lands on the single shared response queue; caller 2 — whose poll is the
first to see the queue non-empty, at tick 20 (2 s) of its 5 s wait — receives
`1000`, the response produced for caller 1's command. -/
theorem C2_crosstalk :
    (send_command_to_mt5 [] (fun _ => [])
        (Json.obj [("action", Json.str "GET_STATS")]) 5).1 =
      [Json.obj [("action", Json.str "GET_STATS")]] ∧
    (send_command_to_mt5 [Json.obj [("action", Json.str "GET_STATS")]]
        (fun t => if t < 20 then [] else [Json.num 1000])
        (Json.obj [("action", Json.str "GET_POSITIONS")]) 5).1 =
      [Json.obj [("action", Json.str "GET_STATS")],
       Json.obj [("action", Json.str "GET_POSITIONS")]] ∧
    (tcpIter loads ⟨[Json.obj [("action", Json.str "GET_STATS")],
        Json.obj [("action", Json.str "GET_POSITIONS")]], [], none, []⟩
        [['1', '0', '0', '0']]).2.sentCommand =
      some (Json.obj [("action", Json.str "GET_STATS")]) ∧
    (tcpIter loads ⟨[Json.obj [("action", Json.str "GET_STATS")],
        Json.obj [("action", Json.str "GET_POSITIONS")]], [], none, []⟩
        [['1', '0', '0', '0']]).1.response_queue = [Json.num 1000] ∧
    (send_command_to_mt5 [Json.obj [("action", Json.str "GET_STATS")]]
        (fun t => if t < 20 then [] else [Json.num 1000])
        (Json.obj [("action", Json.str "GET_POSITIONS")]) 5).2 =
      .ok (Json.num 1000) :=
  ⟨rfl, rfl, rfl, rfl, rfl⟩

/-- C1 (counterexample): the claim "a Response delivered after the caller's
wait timed out is dropped and never returned to any later caller" is false on
the code.  Caller A submits GET_STATS with timeout 1 s, no client connects
during its wait, so A fails with the 504; the client then connects, is sent
A's GET_STATS, and replies `1000`, which the acceptor enqueues on the shared
response queue; a later caller B submitting GET_POSITIONS polls, finds `1000`
at the head, and receives caller A's response. -/
theorem C1_counterexample :
    (send_command_to_mt5 [] (fun _ => [])
        (Json.obj [("action", Json.str "GET_STATS")]) 1).1 =
      [Json.obj [("action", Json.str "GET_STATS")]] ∧
    (send_command_to_mt5 [] (fun _ => [])
        (Json.obj [("action", Json.str "GET_STATS")]) 1).2 =
      .error httpTimeout ∧
    (tcpIter loads ⟨[Json.obj [("action", Json.str "GET_STATS")]], [], none, []⟩
        [['1', '0', '0', '0']]).2.sentCommand =
      some (Json.obj [("action", Json.str "GET_STATS")]) ∧
    (tcpIter loads ⟨[Json.obj [("action", Json.str "GET_STATS")]], [], none, []⟩
        [['1', '0', '0', '0']]).1.response_queue = [Json.num 1000] ∧
    (send_command_to_mt5 [] (fun _ => [Json.num 1000])
        (Json.obj [("action", Json.str "GET_POSITIONS")]) 1).2 =
      .ok (Json.num 1000) :=
  ⟨rfl, rfl, rfl, rfl, rfl⟩

/-- C1 (amended): a Response the acceptor delivers after the originating
caller's wait already timed out is NOT dropped: it is appended to the single
shared response queue, and a later `send_command_to_mt5` caller with a
positive timeout whose poll finds it at the head receives it as the result of
their own, different command. -/
theorem C1_late_response_redelivered (parse : List Char → Option Json)
    (c c2 : Json) (rest : List Json) (lr : Option Json) (log : List String)
    (chunks : List (List Char)) (r : Json) (T : Nat)
    (hr : readLoop parse [] chunks = some r) (hT : 0 < T) :
    (tcpIter parse ⟨c :: rest, [], lr, log⟩ chunks).1.response_queue = [r] ∧
    (send_command_to_mt5 rest
        (fun _ => (tcpIter parse ⟨c :: rest, [], lr, log⟩ chunks).1.response_queue)
        c2 T).2 = .ok r := by
  have hq : (tcpIter parse ⟨c :: rest, [], lr, log⟩ chunks).1.response_queue
      = [r] := by
    simp [tcpIter, handleConn, hr]
  refine ⟨hq, ?_⟩
  show (pollLoop _ (10 * T)).1 = _
  exact pollLoop_head _ r [] (10 * T) (by omega) (by simp only [hq])

/-- Witness for the amended C1 at a concrete late delivery. -/
theorem C1_late_response_redelivered_witness :
    (tcpIter loads ⟨[Json.obj [("action", Json.str "GET_STATS")]], [], none, []⟩
        [['7']]).1.response_queue = [Json.num 7] ∧
    (send_command_to_mt5 []
        (fun _ => (tcpIter loads ⟨[Json.obj [("action", Json.str "GET_STATS")]],
            [], none, []⟩ [['7']]).1.response_queue)
        Json.null 1).2 = .ok (Json.num 7) :=
  C1_late_response_redelivered loads (Json.obj [("action", Json.str "GET_STATS")])
    Json.null [] none [] [['7']] (Json.num 7) 1 rfl (by decide)

/-- Characterisation of the read loop, generalised over the buffer already
accumulated: it returns `some j` exactly when the first chunk boundary at
which the accumulated bytes parse yields `j`. -/
theorem readLoop_eq_some_iff (parse : List Char → Option Json)
    (acc : List Char) (chunks : List (List Char)) (j : Json) :
    readLoop parse acc chunks = some j ↔
      ∃ k, 0 < k ∧ k ≤ chunks.length ∧
        parse (acc ++ (chunks.take k).flatten) = some j ∧
        ∀ i, 0 < i → i < k → parse (acc ++ (chunks.take i).flatten) = none := by
  induction chunks generalizing acc with
  | nil =>
    constructor
    · intro h
      exact Option.noConfusion h
    · rintro ⟨k, hk0, hklen, -, -⟩
      simp only [List.length_nil] at hklen
      omega
  | cons chunk rest ih =>
    cases hp : parse (acc ++ chunk) with
    | some j' =>
      have hL : readLoop parse acc (chunk :: rest) = some j' := by
        rw [readLoop, hp]
      rw [hL]
      constructor
      · intro h
        injection h with hjj
        subst hjj
        refine ⟨1, Nat.one_pos, by simp, by simpa using hp, ?_⟩
        intro i h1 h2
        omega
      · rintro ⟨k, hk0, hklen, hpk, hmin⟩
        rcases Nat.lt_or_ge 1 k with h1k | h1k
        · have h1 := hmin 1 Nat.one_pos h1k
          simp only [List.take_succ_cons, List.take_zero, List.flatten_cons,
            List.flatten_nil, List.append_nil] at h1
          rw [hp] at h1
          exact Option.noConfusion h1
        · have hk1 : k = 1 := by omega
          subst hk1
          simp only [List.take_succ_cons, List.take_zero, List.flatten_cons,
            List.flatten_nil, List.append_nil] at hpk
          rw [hp] at hpk
          exact hpk
    | none =>
      have hL : readLoop parse acc (chunk :: rest) =
          readLoop parse (acc ++ chunk) rest := by
        rw [readLoop, hp]
      rw [hL, ih (acc ++ chunk)]
      constructor
      · rintro ⟨k', hk0, hklen, hpk, hmin⟩
        refine ⟨k' + 1, by omega, by simp; omega, ?_, ?_⟩
        · simpa [List.append_assoc] using hpk
        · intro i hi0 hik
          cases i with
          | zero => omega
          | succ i' =>
            cases i' with
            | zero => simpa using hp
            | succ i'' =>
              have h2 := hmin (i'' + 1) (by omega) (by omega)
              simpa [List.append_assoc] using h2
      · rintro ⟨k, hk0, hklen, hpk, hmin⟩
        cases k with
        | zero => omega
        | succ k' =>
          cases k' with
          | zero =>
            exfalso
            have h1 : parse (acc ++ chunk) = some j := by simpa using hpk
            rw [hp] at h1
            exact Option.noConfusion h1
          | succ k'' =>
            refine ⟨k'' + 1, by omega, ?_, ?_, ?_⟩
            · simp only [List.length_cons] at hklen
              omega
            · simpa [List.append_assoc] using hpk
            · intro i' hi0 hik
              have h2 := hmin (i' + 1) (by omega) (by omega)
              simpa [List.append_assoc] using h2

/-- C6 (amended): the Wire Framer read loop returns the parse of the first
chunk-boundary-aligned accumulated prefix of the stream that is a
syntactically complete JSON document (every strictly shorter boundary prefix
fails to parse).  Completeness is checked only when a chunk arrives, so the
result is NOT independent of where the chunk boundaries fall — see the
counterexample theorem. -/
theorem C6_first_boundary_parse (parse : List Char → Option Json)
    (chunks : List (List Char)) (j : Json) :
    readLoop parse [] chunks = some j ↔
      ∃ k, 0 < k ∧ k ≤ chunks.length ∧
        parse ((chunks.take k).flatten) = some j ∧
        ∀ i, 0 < i → i < k → parse ((chunks.take i).flatten) = none := by
  simpa using readLoop_eq_some_iff parse [] chunks j

/-- C6 (counterexample): the read-loop result is not independent of chunk
boundaries.  The same byte stream "11" — a complete JSON document denoting
the number 11 — returns 11 when delivered as the single chunk "11", but
already parses at the first chunk boundary and returns 1 when delivered as
the two chunks "1", "1". -/
theorem C6_counterexample :
    List.flatten [['1', '1']] = List.flatten [['1'], ['1']] ∧
    readLoop loads [] [['1', '1']] = some (Json.num 11) ∧
    readLoop loads [] [['1'], ['1']] = some (Json.num 1) ∧
    Json.num 11 ≠ Json.num 1 :=
  ⟨rfl, rfl, rfl, by simp⟩

end MT5Bridge
